import Mathlib

/-!
Shallow embedding of the GA-dashboard categorization / aggregation engine
(`ga-client`), with theorems checking the natural-language specification
against it.  Strings are Lean `String`s; JS numbers are embedded as `ℕ`
for integer counts and `ℚ` (or `ℝ` where a square root occurs) for
derived rates; the async gateway queries are embedded as `Except`-valued
inputs to pure core functions.
-/

namespace GA

/-! ### String helpers (JS `toLowerCase`, `includes`, `split('.')[0]`) -/

/-- JS `s.toLowerCase()` (ASCII case folding, which covers every string
occurring in the curated lists and rules). -/
def lowerStr (s : String) : String := ⟨s.data.map Char.toLower⟩

/-- Whether `needle` begins `hay` (on character lists). -/
def startsWithCL : List Char → List Char → Bool
  | [], _ => true
  | _ :: _, [] => false
  | a :: as, b :: bs => a == b && startsWithCL as bs

/-- Whether `needle` occurs as a contiguous substring of `hay` (on character lists);
the empty needle always occurs. -/
def listContainsSub (needle : List Char) : List Char → Bool
  | [] => needle.isEmpty
  | c :: rest => startsWithCL needle (c :: rest) || listContainsSub needle rest

/-- JS `hay.includes(pat)`. -/
def strIncludes (hay pat : String) : Bool := listContainsSub pat.data hay.data

/-- The characters of a string before its first `'.'` — JS `s.split('.')[0]`
(the whole string when no dot occurs). -/
def takeBeforeDot : List Char → List Char
  | [] => []
  | c :: cs => if c == '.' then [] else c :: takeBeforeDot cs

/-- JS `s.split('.')[0]` as a `String`. -/
def beforeDot (s : String) : String := ⟨takeBeforeDot s.data⟩

/-! ### Curated source lists (static configuration from `ga-client`) -/

def LLM_SOURCES : List String :=
  ["chatgpt.com", "chat.openai.com", "openai.com",
   "perplexity.ai", "perplexity",
   "claude.ai", "anthropic.com",
   "bard.google.com", "gemini.google.com",
   "bing.com/chat", "copilot.microsoft.com",
   "you.com", "phind.com", "poe.com"]

def LISTING_SOURCES : List String :=
  ["yelp.com", "m.yelp.com", "yelp",
   "google.com/maps", "maps.google.com", "google.com/local",
   "business.google.com", "g.page",
   "clutch.co", "expertise.com", "thumbtack.com",
   "homeadvisor.com", "angieslist.com", "angi.com",
   "bbb.org", "yellowpages.com", "manta.com",
   "facebook.com/biz", "nextdoor.com",
   "avvo.com", "justia.com", "lawyers.com",
   "healthgrades.com", "zocdoc.com", "vitals.com",
   "houzz.com", "buildzoom.com",
   "cpafee.com", "designrush.com", "upcity.com"]

def ORGANIC_SEARCH_ENGINES : List String :=
  ["google", "bing", "yahoo", "duckduckgo", "baidu",
   "yandex", "ecosia", "brave", "startpage"]

/-- The inline social-platform list used by the social rule. -/
def SOCIAL_PLATFORMS : List String :=
  ["facebook", "instagram", "twitter", "linkedin", "tiktok", "pinterest"]

/-! ### Source categorizer -/

/-- Embedding of `categorizeSource` from `ga-client`: ordered first-match rules mapping a
(source, medium) pair to one of eight category strings. -/
def categorizeSource (source medium : String) : String :=
  let sourceLower := lowerStr source
  let mediumLower := lowerStr medium
  if LLM_SOURCES.any (fun llm => strIncludes sourceLower (beforeDot llm)) then
    "llmAI"
  else if LISTING_SOURCES.any (fun listing => strIncludes sourceLower (beforeDot listing)) then
    "listings"
  else if mediumLower == "cpc" || mediumLower == "ppc" || mediumLower == "paid"
      || strIncludes mediumLower "paid" then
    "paidSearch"
  else if mediumLower == "organic"
      && ORGANIC_SEARCH_ENGINES.any (fun engine => strIncludes sourceLower engine) then
    "organicSearch"
  else if strIncludes mediumLower "social"
      || SOCIAL_PLATFORMS.any (fun s => strIncludes sourceLower s) then
    "social"
  else if mediumLower == "referral" then
    "referral"
  else if sourceLower == "(direct)" || mediumLower == "(none)" || mediumLower == "direct" then
    "direct"
  else
    "other"

/-! ### Event classification (form submissions vs phone calls) -/

/-- The curated form-event substrings (identical at both call sites). -/
def formEventNames : List String :=
  ["form_submit", "generate_lead", "contact_form", "form_submission", "submit_form", "lead_form"]

/-- The curated phone-event substrings (identical at both call sites). -/
def phoneEventNames : List String :=
  ["phone_click", "click_to_call", "tel_click", "phone_call", "call_click", "phone"]

/-- Per-key running totals of form and phone event counts. -/
structure EventCounts where
  forms : Nat
  phones : Nat
deriving Repr, DecidableEq

/-- One step of the event loop: the lower-cased event name is tested against
the form list first, `else if` against the phone list, else ignored. -/
def applyEvent (d : EventCounts) (eventNameLower : String) (count : Nat) : EventCounts :=
  if formEventNames.any (fun e => strIncludes eventNameLower e) then
    { d with forms := d.forms + count }
  else if phoneEventNames.any (fun e => strIncludes eventNameLower e) then
    { d with phones := d.phones + count }
  else
    d

/-! ### Association-list maps (embedding the JS `Map`s) -/

/-- JS `Map.get` on an association list. -/
def mapGet {β : Type} (m : List (String × β)) (k : String) : Option β :=
  (m.find? (fun p => p.1 == k)).map (·.2)

/-- JS `Map.set` on an association list: replaces the binding when the key is
present, otherwise appends it. -/
def mapSet {β : Type} (m : List (String × β)) (k : String) (v : β) : List (String × β) :=
  match m with
  | [] => [(k, v)]
  | (k', v') :: rest => if k' == k then (k, v) :: rest else (k', v') :: mapSet rest k v

/-! ### getDetailedChannelBreakdown (pure core) -/

/-- A raw source/medium row of the first report query
(`sessionSource`, `sessionMedium` / `activeUsers`, `sessions`, `conversions`). -/
structure SourceRow where
  source : String
  medium : String
  users : Nat
  sessions : Nat
  conversions : Nat
deriving Repr, DecidableEq

/-- A raw event row of the second report query
(`sessionSource`, `sessionMedium`, `eventName` / `eventCount`). -/
structure EventRow where
  source : String
  medium : String
  eventName : String
  count : Nat
deriving Repr, DecidableEq

/-- The event-data map keyed by `source|medium`, built by the event loop of
`getDetailedChannelBreakdown`. -/
def buildEventData (rows : List EventRow) : List (String × EventCounts) :=
  rows.foldl
    (fun m row =>
      let key := row.source ++ "|" ++ row.medium
      let d := (mapGet m key).getD ⟨0, 0⟩
      mapSet m key (applyEvent d (lowerStr row.eventName) row.count))
    []

/-- Aggregated metrics for one source/medium pair. -/
structure SourceMetrics where
  source : String
  medium : String
  category : String
  users : Nat
  sessions : Nat
  conversions : Nat
  formSubmissions : Nat
  phoneCalls : Nat
  clickToLeadRate : ℚ
deriving Repr, DecidableEq

/-- The fixed-key mapping from category name to sequence of `SourceMetrics`. -/
structure DetailedChannelBreakdown where
  organicSearch : List SourceMetrics
  paidSearch : List SourceMetrics
  llmAI : List SourceMetrics
  listings : List SourceMetrics
  social : List SourceMetrics
  referral : List SourceMetrics
  direct : List SourceMetrics
  other : List SourceMetrics
deriving Repr, DecidableEq

def emptyBreakdown : DetailedChannelBreakdown := ⟨[], [], [], [], [], [], [], []⟩

/-- JS `breakdown[category].push(metrics)`: dynamic key lookup into the fixed
object.  `categorizeSource` only ever produces the eight keys below, so the
fall-through (which leaves the breakdown unchanged) is unreachable. -/
def pushCategory (b : DetailedChannelBreakdown) (cat : String) (m : SourceMetrics) :
    DetailedChannelBreakdown :=
  if cat = "organicSearch" then { b with organicSearch := b.organicSearch ++ [m] }
  else if cat = "paidSearch" then { b with paidSearch := b.paidSearch ++ [m] }
  else if cat = "llmAI" then { b with llmAI := b.llmAI ++ [m] }
  else if cat = "listings" then { b with listings := b.listings ++ [m] }
  else if cat = "social" then { b with social := b.social ++ [m] }
  else if cat = "referral" then { b with referral := b.referral ++ [m] }
  else if cat = "direct" then { b with direct := b.direct ++ [m] }
  else if cat = "other" then { b with other := b.other ++ [m] }
  else b

/-- The `SourceMetrics` record built for one source row, including the
`clickToLeadRate = sessions > 0 ? conversions / sessions * 100 : 0` rate. -/
def mkSourceMetrics (eventData : List (String × EventCounts)) (row : SourceRow) :
    SourceMetrics :=
  let key := row.source ++ "|" ++ row.medium
  let events := (mapGet eventData key).getD ⟨0, 0⟩
  let category := categorizeSource row.source row.medium
  { source := row.source
    medium := row.medium
    category := category
    users := row.users
    sessions := row.sessions
    conversions := row.conversions
    formSubmissions := events.forms
    phoneCalls := events.phones
    clickToLeadRate :=
      if row.sessions > 0 then (row.conversions : ℚ) / (row.sessions : ℚ) * 100 else 0 }

/-- JS `sort((a, b) => b.sessions - a.sessions)`: descending by sessions. -/
def sortBySessionsDesc (l : List SourceMetrics) : List SourceMetrics :=
  l.mergeSort (fun a b => b.sessions ≤ a.sessions)

/-- The source-row loop of `getDetailedChannelBreakdown`: push every row into
its category's sequence. -/
def foldBreakdown (eventData : List (String × EventCounts)) (sourceRows : List SourceRow) :
    DetailedChannelBreakdown :=
  sourceRows.foldl
    (fun b row => pushCategory b (categorizeSource row.source row.medium)
      (mkSourceMetrics eventData row))
    emptyBreakdown

/-- The final sorting pass: each category's sequence sorted descending by
sessions. -/
def sortBreakdown (b : DetailedChannelBreakdown) : DetailedChannelBreakdown :=
  { organicSearch := sortBySessionsDesc b.organicSearch
    paidSearch := sortBySessionsDesc b.paidSearch
    llmAI := sortBySessionsDesc b.llmAI
    listings := sortBySessionsDesc b.listings
    social := sortBySessionsDesc b.social
    referral := sortBySessionsDesc b.referral
    direct := sortBySessionsDesc b.direct
    other := sortBySessionsDesc b.other }

/-- Pure core of `getDetailedChannelBreakdown`: build the event map, push
every source row into its category's sequence, then sort each sequence
descending by sessions. -/
def getDetailedChannelBreakdownCore (sourceRows : List SourceRow) (eventRows : List EventRow) :
    DetailedChannelBreakdown :=
  sortBreakdown (foldBreakdown (buildEventData eventRows) sourceRows)

/-- Membership in any of the eight category sequences. -/
def memBreakdown (m : SourceMetrics) (b : DetailedChannelBreakdown) : Prop :=
  m ∈ b.organicSearch ∨ m ∈ b.paidSearch ∨ m ∈ b.llmAI ∨ m ∈ b.listings
    ∨ m ∈ b.social ∨ m ∈ b.referral ∨ m ∈ b.direct ∨ m ∈ b.other

/-- A sequence is sorted descending by session count. -/
def DescBySessions (l : List SourceMetrics) : Prop :=
  List.Sorted (fun a b => b.sessions ≤ a.sessions) l

/-- Total number of entries across the eight category sequences. -/
def totalEntries (b : DetailedChannelBreakdown) : Nat :=
  b.organicSearch.length + b.paidSearch.length + b.llmAI.length + b.listings.length
    + b.social.length + b.referral.length + b.direct.length + b.other.length

/-! ### getConversionsByChannel (pure core) -/

/-- A raw channel row (`sessionDefaultChannelGroup` /
`activeUsers`, `sessions`, `conversions`). -/
structure ChannelRow where
  channel : String
  users : Nat
  sessions : Nat
  conversions : Nat
deriving Repr, DecidableEq

/-- A raw channel event row (`sessionDefaultChannelGroup`, `eventName` /
`eventCount`). -/
structure ChannelEventRow where
  channel : String
  eventName : String
  count : Nat
deriving Repr, DecidableEq

structure ChannelMetrics where
  channel : String
  users : Nat
  sessions : Nat
  clicks : Nat
  conversions : Nat
  formSubmissions : Nat
  phoneCalls : Nat
  clickToLeadRate : ℚ
deriving Repr, DecidableEq

structure ConversionsByType where
  formSubmissions : Nat
  phoneCalls : Nat
  totalConversions : Nat
  byChannel : List ChannelMetrics
deriving Repr, DecidableEq

/-- The clicks-by-channel map from the optional Search Console query: the
`try`/`catch` leaves it empty when that query throws. -/
def buildClicksByChannel (searchRes : Except String (List (String × Nat))) :
    List (String × Nat) :=
  match searchRes with
  | .error _ => []
  | .ok rows => rows.foldl (fun m p => mapSet m p.1 p.2) []

/-- State of the channel event loop: the per-channel map plus the running
`totalForms` / `totalPhones` counters. -/
structure ChannelEventState where
  channelData : List (String × EventCounts)
  totalForms : Nat
  totalPhones : Nat

/-- One step of the channel event loop. -/
def channelEventStep (st : ChannelEventState) (row : ChannelEventRow) : ChannelEventState :=
  let eventName := lowerStr row.eventName
  let d := (mapGet st.channelData row.channel).getD ⟨0, 0⟩
  if formEventNames.any (fun e => strIncludes eventName e) then
    { st with
      channelData := mapSet st.channelData row.channel { d with forms := d.forms + row.count }
      totalForms := st.totalForms + row.count }
  else if phoneEventNames.any (fun e => strIncludes eventName e) then
    { st with
      channelData := mapSet st.channelData row.channel { d with phones := d.phones + row.count }
      totalPhones := st.totalPhones + row.count }
  else
    { st with channelData := mapSet st.channelData row.channel d }

/-- The `ChannelMetrics` record built for one channel row.
`clicks := clicksByChannel.get(channel) || sessions` — the JS `||` falls back
to `sessions` both when the key is absent and when the stored count is `0`. -/
def mkChannelMetrics (clicksByChannel : List (String × Nat))
    (channelData : List (String × EventCounts)) (row : ChannelRow) : ChannelMetrics :=
  let clicks :=
    match mapGet clicksByChannel row.channel with
    | some c => if c ≠ 0 then c else row.sessions
    | none => row.sessions
  let eventData := (mapGet channelData row.channel).getD ⟨0, 0⟩
  { channel := row.channel
    users := row.users
    sessions := row.sessions
    clicks := clicks
    conversions := row.conversions
    formSubmissions := eventData.forms
    phoneCalls := eventData.phones
    clickToLeadRate :=
      if clicks > 0 then (row.conversions : ℚ) / (clicks : ℚ) * 100 else 0 }

/-- Pure core of `getConversionsByChannel` (after the two required queries
have succeeded; the optional search query result is passed as an `Except`). -/
def getConversionsByChannelCore (channelRows : List ChannelRow)
    (eventRows : List ChannelEventRow)
    (searchRes : Except String (List (String × Nat))) : ConversionsByType :=
  let clicksByChannel := buildClicksByChannel searchRes
  let st := eventRows.foldl channelEventStep ⟨[], 0, 0⟩
  let byChannel := channelRows.map (mkChannelMetrics clicksByChannel st.channelData)
  let totalConversions := channelRows.foldl (fun acc row => acc + row.conversions) 0
  ⟨st.totalForms, st.totalPhones, totalConversions, byChannel⟩

/-- Embedding of `getConversionsByChannel` with the two required gateway queries embedded
as `Except` inputs: a failure of either propagates; only the search query is
caught inside the core. -/
def getConversionsByChannel (channelRes : Except String (List ChannelRow))
    (eventsRes : Except String (List ChannelEventRow))
    (searchRes : Except String (List (String × Nat))) : Except String ConversionsByType := do
  let channelRows ← channelRes
  let eventRows ← eventsRes
  pure (getConversionsByChannelCore channelRows eventRows searchRes)

/-! ### getWeeklyDashboardMetrics (pure core) -/

/-- Embedding of `formatDate`: `YYYYMMDD` → `YYYY-MM-DD`; anything of another length
passes through unchanged. -/
def formatDate (dateStr : String) : String :=
  if dateStr.length = 8 then
    ⟨dateStr.data.take 4⟩ ++ "-" ++ ⟨(dateStr.data.drop 4).take 2⟩ ++ "-"
      ++ ⟨(dateStr.data.drop 6).take 2⟩
  else dateStr

/-- A parsed row of the required main daily query (`bounceRate`,
`engagementRate` still the raw 0–1 fractions GA returns). -/
structure MainDayRow where
  date : String
  users : Nat
  newUsers : Nat
  sessions : Nat
  pageviews : Nat
  bounceRate : ℚ
  engagementRate : ℚ
  conversions : Nat
  avgSessionDuration : ℚ
deriving Repr, DecidableEq

/-- A parsed row of the optional Search Console daily query (`ctr` the raw
fraction). -/
structure SearchDayRow where
  date : String
  impressions : Nat
  clicks : Nat
  ctr : ℚ
deriving Repr, DecidableEq

/-- Per-day search data stored in the `searchData` map (ctr already ×100). -/
structure SearchDay where
  impressions : Nat
  clicks : Nat
  ctr : ℚ
deriving Repr, DecidableEq

/-- The `searchData` map: empty when the optional query threw. -/
def buildSearchData (searchRes : Except String (List SearchDayRow)) :
    List (String × SearchDay) :=
  match searchRes with
  | .error _ => []
  | .ok rows =>
    rows.foldl
      (fun m row => mapSet m (formatDate row.date) ⟨row.impressions, row.clicks, row.ctr * 100⟩)
      []

structure WeeklyMetrics where
  date : String
  users : Nat
  newUsers : Nat
  sessions : Nat
  pageviews : Nat
  bounceRate : ℚ
  engagementRate : ℚ
  conversions : Nat
  impressions : Nat
  clicks : Nat
  ctr : ℚ
deriving Repr, DecidableEq

structure WeeklyTotals where
  users : Nat
  newUsers : Nat
  sessions : Nat
  pageviews : Nat
  bounceRate : ℚ
  engagementRate : ℚ
  conversions : Nat
  impressions : Nat
  clicks : Nat
  ctr : ℚ
  avgSessionDuration : ℚ
deriving Repr, DecidableEq

/-- Accumulator of the daily loop of `getWeeklyDashboardMetrics`. -/
structure WeeklyState where
  daily : List WeeklyMetrics
  totalUsers : Nat
  totalNewUsers : Nat
  totalSessions : Nat
  totalPageviews : Nat
  totalConversions : Nat
  totalImpressions : Nat
  totalClicks : Nat
  bounceRateSum : ℚ
  engagementRateSum : ℚ
  avgSessionDurationSum : ℚ
  rowCount : Nat

/-- One step of the daily loop: push the day's record (search fields default
to the zero record when the date is missing from `searchData`) and bump every
accumulator. -/
def weeklyStep (searchData : List (String × SearchDay)) (st : WeeklyState)
    (row : MainDayRow) : WeeklyState :=
  let date := formatDate row.date
  let search := (mapGet searchData date).getD ⟨0, 0, 0⟩
  let bounceRate := row.bounceRate * 100
  let engagementRate := row.engagementRate * 100
  { daily := st.daily ++
      [⟨date, row.users, row.newUsers, row.sessions, row.pageviews, bounceRate,
        engagementRate, row.conversions, search.impressions, search.clicks, search.ctr⟩]
    totalUsers := st.totalUsers + row.users
    totalNewUsers := st.totalNewUsers + row.newUsers
    totalSessions := st.totalSessions + row.sessions
    totalPageviews := st.totalPageviews + row.pageviews
    totalConversions := st.totalConversions + row.conversions
    totalImpressions := st.totalImpressions + search.impressions
    totalClicks := st.totalClicks + search.clicks
    bounceRateSum := st.bounceRateSum + bounceRate
    engagementRateSum := st.engagementRateSum + engagementRate
    avgSessionDurationSum := st.avgSessionDurationSum + row.avgSessionDuration
    rowCount := st.rowCount + 1 }

def initWeeklyState : WeeklyState := ⟨[], 0, 0, 0, 0, 0, 0, 0, 0, 0, 0, 0⟩

/-- Pure core of `getWeeklyDashboardMetrics` (the required main query already
succeeded; the optional search query result is passed as an `Except`). -/
def getWeeklyDashboardMetricsCore (mainRows : List MainDayRow)
    (searchRes : Except String (List SearchDayRow)) : WeeklyTotals × List WeeklyMetrics :=
  let searchData := buildSearchData searchRes
  let st := mainRows.foldl (weeklyStep searchData) initWeeklyState
  ({ users := st.totalUsers
     newUsers := st.totalNewUsers
     sessions := st.totalSessions
     pageviews := st.totalPageviews
     bounceRate := if st.rowCount > 0 then st.bounceRateSum / (st.rowCount : ℚ) else 0
     engagementRate := if st.rowCount > 0 then st.engagementRateSum / (st.rowCount : ℚ) else 0
     conversions := st.totalConversions
     impressions := st.totalImpressions
     clicks := st.totalClicks
     ctr := if st.totalImpressions > 0
       then (st.totalClicks : ℚ) / (st.totalImpressions : ℚ) * 100 else 0
     avgSessionDuration :=
       if st.rowCount > 0 then st.avgSessionDurationSum / (st.rowCount : ℚ) else 0 },
   st.daily)

/-- Embedding of `getWeeklyDashboardMetrics` with the required main query embedded as an
`Except` input: its failure propagates; the search query is optional. -/
def getWeeklyDashboardMetrics (mainRes : Except String (List MainDayRow))
    (searchRes : Except String (List SearchDayRow)) :
    Except String (WeeklyTotals × List WeeklyMetrics) := do
  let mainRows ← mainRes
  pure (getWeeklyDashboardMetricsCore mainRows searchRes)

/-! ### Period comparison -/

/-- Embedding of `calculateChange` as defined inside `comparePeriods`. -/
def calculateChangeCP (current previous : ℚ) : ℚ :=
  if previous = 0 then (if current > 0 then 100 else 0)
  else (current - previous) / previous * 100

/-- Embedding of `calculateChange` as defined inside `compareWithLastYear` (textually the
same local function, re-declared at the second call site). -/
def calculateChangeLY (curr prev : ℚ) : ℚ :=
  if prev = 0 then (if curr > 0 then 100 else 0)
  else (curr - prev) / prev * 100

structure PeriodChanges where
  users : ℚ
  sessions : ℚ
  pageviews : ℚ
deriving Repr, DecidableEq

/-- The `changes` record of `comparePeriods`, given the two aggregated
metric sets. -/
def comparePeriodsChanges (users1 sessions1 pageviews1 users2 sessions2 pageviews2 : ℚ) :
    PeriodChanges :=
  ⟨calculateChangeCP users1 users2, calculateChangeCP sessions1 sessions2,
   calculateChangeCP pageviews1 pageviews2⟩

/-- The weekly-totals click-to-lead rate computed in `compareWithLastYear`:
`totals.clicks > 0 ? totalConversions / totals.clicks * 100 : 0`. -/
def weeklyClickToLeadRate (totalsClicks totalConversions : Nat) : ℚ :=
  if totalsClicks > 0 then (totalConversions : ℚ) / (totalsClicks : ℚ) * 100 else 0

/-- The comparison assembled by `compareWithLastYear` from the four query
results (only the fields the claims are about). -/
structure YearComparison where
  currentClickToLeadRate : ℚ
  lastYearClickToLeadRate : ℚ
  changes : List (String × ℚ)
deriving Repr, DecidableEq

def compareWithLastYearCore (currentTotals lastYearTotals : WeeklyTotals)
    (currentConv lastYearConv : ConversionsByType) : YearComparison :=
  let currentClickToLead :=
    weeklyClickToLeadRate currentTotals.clicks currentConv.totalConversions
  let lastYearClickToLead :=
    weeklyClickToLeadRate lastYearTotals.clicks lastYearConv.totalConversions
  { currentClickToLeadRate := currentClickToLead
    lastYearClickToLeadRate := lastYearClickToLead
    changes :=
      [("users", calculateChangeLY currentTotals.users lastYearTotals.users),
       ("newUsers", calculateChangeLY currentTotals.newUsers lastYearTotals.newUsers),
       ("sessions", calculateChangeLY currentTotals.sessions lastYearTotals.sessions),
       ("pageviews", calculateChangeLY currentTotals.pageviews lastYearTotals.pageviews),
       ("conversions", calculateChangeLY currentTotals.conversions lastYearTotals.conversions),
       ("impressions", calculateChangeLY currentTotals.impressions lastYearTotals.impressions),
       ("clicks", calculateChangeLY currentTotals.clicks lastYearTotals.clicks),
       ("ctr", calculateChangeLY currentTotals.ctr lastYearTotals.ctr),
       ("formSubmissions",
        calculateChangeLY currentConv.formSubmissions lastYearConv.formSubmissions),
       ("phoneCalls", calculateChangeLY currentConv.phoneCalls lastYearConv.phoneCalls),
       ("clickToLeadRate", calculateChangeLY currentClickToLead lastYearClickToLead)] }

/-! ### getLastCompleteWeek

Dates are embedded as integer day numbers (days since the Unix epoch);
`jsGetDay` is JS `Date.prototype.getDay` (0 = Sunday; day 0, 1970-01-01,
was a Thursday). -/

def jsGetDay (d : ℤ) : ℤ := (d + 4) % 7

structure DayRange where
  startDay : ℤ
  endDay : ℤ
deriving Repr, DecidableEq

/-- Embedding of `getLastCompleteWeek` on day numbers: `lastSunday` is today minus
(7 when today is Sunday, else today's day-of-week); `lastMonday` is six days
earlier. -/
def getLastCompleteWeek (today : ℤ) : DayRange :=
  let dayOfWeek := jsGetDay today
  let lastSunday := today - (if dayOfWeek = 0 then 7 else dayOfWeek)
  let lastMonday := lastSunday - 6
  ⟨lastMonday, lastSunday⟩

/-! ### detectAnomalies

The series values and the threshold live in `ℝ` because the source computes
`Math.sqrt`; the definitions below are therefore noncomputable but exactly
mirror the arithmetic of `detectAnomalies`. -/

/-- One fetched `{date, value}` point of the daily series. -/
structure DatedValue where
  date : String
  value : ℝ

structure AnomalyPoint where
  date : String
  value : ℝ
  deviation : ℝ

structure AnomalyResult where
  hasAnomaly : Bool
  anomalies : List AnomalyPoint

/-- The code line `mean = numValues.reduce((a, b) => a + b, 0) / numValues.length`. -/
noncomputable def anomalyMean (values : List DatedValue) : ℝ :=
  (values.map (·.value)).sum / ((values.map (·.value)).length : ℝ)

/-- The code line `stdDev = sqrt(numValues.reduce((sum, val) => sum + (val - mean)^2, 0)
/ numValues.length)` — the population standard deviation (divide by N). -/
noncomputable def anomalyStdDev (values : List DatedValue) : ℝ :=
  Real.sqrt
    (((values.map (·.value)).map (fun v => (v - anomalyMean values) ^ 2)).sum
      / ((values.map (·.value)).length : ℝ))

/-- The mapped series with each point's deviation:
`(value - mean) / stdDev` when `stdDev > 0`, else `0`. -/
noncomputable def anomalyPoints (values : List DatedValue) : List AnomalyPoint :=
  values.map (fun v =>
    ⟨v.date, v.value,
     if anomalyStdDev values > 0 then (v.value - anomalyMean values) / anomalyStdDev values
     else 0⟩)

open Classical in
/-- Pure core of `detectAnomalies`: filter the mapped series by
`|deviation| > threshold` (strict), `hasAnomaly := anomalies.length > 0`. -/
noncomputable def detectAnomaliesCore (values : List DatedValue) (threshold : ℝ) :
    AnomalyResult :=
  let anomalies := (anomalyPoints values).filter (fun a => decide (|a.deviation| > threshold))
  ⟨decide (anomalies.length > 0), anomalies⟩

end GA

open GA

/-! ## Theorems about the embedded program -/

/-- C1.  Evaluation of `categorizeSource` at the six inputs of the claim.
Four agree with the claim, but `("google", "organic")` and `("google", "cpc")`
both return `"listings"` — not `"organicSearch"` / `"paidSearch"` as the claim
states — because the curated listing entries `"g.page"` and `"m.yelp.com"`
contribute the single-letter match tokens `"g"` and `"m"`, and `"google"`
contains `"g"`. -/
theorem categorize_six_inputs_eval :
    categorizeSource "chatgpt.com" "referral" = "llmAI"
    ∧ categorizeSource "yelp.com" "referral" = "listings"
    ∧ categorizeSource "google" "organic" = "listings"
    ∧ categorizeSource "google" "cpc" = "listings"
    ∧ categorizeSource "(direct)" "(none)" = "direct"
    ∧ categorizeSource "unknownsite.xyz" "referral" = "referral" := by
  decide

/-- C3.  Both local `calculateChange` definitions implement
`(current − previous) / previous * 100` for a non-zero previous value and the
asymmetric zero-baseline rule (`100` when current > 0, else `0`) when the
previous value is `0`; the three worked examples of the spec hold in both
`comparePeriods` and `compareWithLastYear`. -/
theorem calculateChange_spec (current previous : ℚ) :
    (previous ≠ 0 →
      calculateChangeCP current previous = (current - previous) / previous * 100
      ∧ calculateChangeLY current previous = (current - previous) / previous * 100)
    ∧ (previous = 0 →
      calculateChangeCP current previous = (if 0 < current then 100 else 0)
      ∧ calculateChangeLY current previous = (if 0 < current then 100 else 0))
    ∧ calculateChangeCP 0 0 = 0 ∧ calculateChangeCP 5 0 = 100
    ∧ calculateChangeCP 50 100 = -50
    ∧ calculateChangeLY 0 0 = 0 ∧ calculateChangeLY 5 0 = 100
    ∧ calculateChangeLY 50 100 = -50 := by
  refine ⟨fun h => ?_, fun h => ?_, by norm_num [calculateChangeCP],
    by norm_num [calculateChangeCP], by norm_num [calculateChangeCP],
    by norm_num [calculateChangeLY], by norm_num [calculateChangeLY],
    by norm_num [calculateChangeLY]⟩
  · simp [calculateChangeCP, calculateChangeLY, h]
  · simp [calculateChangeCP, calculateChangeLY, h]

/-- Witness for C3: the non-zero-previous hypothesis discharged at
`(current, previous) = (50, 100)`. -/
theorem calculateChange_spec_witness :
    (100 : ℚ) ≠ 0
    ∧ calculateChangeCP 50 100 = (50 - 100) / 100 * 100
    ∧ calculateChangeLY 50 100 = (50 - 100) / 100 * 100 := by
  refine ⟨by norm_num, ?_, ?_⟩
  · exact ((calculateChange_spec 50 100).1 (by norm_num)).1
  · exact ((calculateChange_spec 50 100).1 (by norm_num)).2

/-- C6 counterexample.  Day 10 (with day 0 a Thursday) is a Sunday, yet
`getLastCompleteWeek` ends the range on day 3 — the Sunday one week earlier —
not on day 10 as the claim states. -/
theorem lastCompleteWeek_sunday_counterexample :
    jsGetDay 10 = 0 ∧ (getLastCompleteWeek 10).endDay = 3 ∧ (3 : ℤ) ≠ 10 := by
  refine ⟨by decide, ?_, by decide⟩
  decide

/-- C6 amended.  For every value of today, the returned range ends on the most
recent Sunday strictly before today — in particular, when today is itself a
Sunday the range ends seven days earlier, not on today — and starts on the
Monday six days before that Sunday. -/
theorem lastCompleteWeek_spec (today : ℤ) :
    jsGetDay (getLastCompleteWeek today).endDay = 0
    ∧ (getLastCompleteWeek today).endDay < today
    ∧ today - (getLastCompleteWeek today).endDay ≤ 7
    ∧ (∀ d : ℤ, jsGetDay d = 0 → d < today → d ≤ (getLastCompleteWeek today).endDay)
    ∧ (getLastCompleteWeek today).startDay = (getLastCompleteWeek today).endDay - 6
    ∧ (jsGetDay today = 0 → (getLastCompleteWeek today).endDay = today - 7) := by
  have hend : (getLastCompleteWeek today).endDay
      = today - (if (today + 4) % 7 = 0 then 7 else (today + 4) % 7) := rfl
  have hstart : (getLastCompleteWeek today).startDay
      = (getLastCompleteWeek today).endDay - 6 := rfl
  refine ⟨?_, ?_, ?_, fun d hd hlt => ?_, hstart, fun hc => ?_⟩
  · show ((getLastCompleteWeek today).endDay + 4) % 7 = 0
    rw [hend]; split_ifs with h <;> omega
  · rw [hend]; split_ifs with h <;> omega
  · rw [hend]; split_ifs with h <;> omega
  · replace hd : (d + 4) % 7 = 0 := hd
    rw [hend]; split_ifs with h <;> omega
  · replace hc : (today + 4) % 7 = 0 := hc
    rw [hend, if_pos hc]

/-- Witness for C6's amended theorem: at today = 10 (a Sunday), day 3 is a
Sunday strictly before today, and it is ≤ the returned end day. -/
theorem lastCompleteWeek_spec_witness :
    jsGetDay 3 = 0 ∧ (3 : ℤ) < 10 ∧ (3 : ℤ) ≤ (getLastCompleteWeek 10).endDay := by
  refine ⟨by decide, by decide, ?_⟩
  exact (lastCompleteWeek_spec 10).2.2.2.1 3 (by decide) (by decide)

/-- C9.  `"m.yelp.com"` and `"g.page"` contribute the single-letter match
tokens `"m"` and `"g"`, so any source containing the letter `m` or `g`
(lower-cased) which matches no LLM/AI token is categorized `"listings"`
whatever the medium; in particular `"google"`, `"gmail.com"` and
`"instagram"` land in `"listings"` for every medium. -/
theorem listing_single_letter_spec :
    (∀ source medium : String,
      (strIncludes (lowerStr source) "m" = true ∨ strIncludes (lowerStr source) "g" = true) →
      LLM_SOURCES.any (fun llm => strIncludes (lowerStr source) (beforeDot llm)) = false →
      categorizeSource source medium = "listings")
    ∧ (∀ medium, categorizeSource "google" medium = "listings")
    ∧ (∀ medium, categorizeSource "gmail.com" medium = "listings")
    ∧ (∀ medium, categorizeSource "instagram" medium = "listings")
    ∧ beforeDot "m.yelp.com" = "m" ∧ beforeDot "g.page" = "g"
    ∧ "m.yelp.com" ∈ LISTING_SOURCES ∧ "g.page" ∈ LISTING_SOURCES := by
  have e1 : beforeDot "m.yelp.com" = "m" := rfl
  have e2 : beforeDot "g.page" = "g" := rfl
  have main : ∀ source medium : String,
      (strIncludes (lowerStr source) "m" = true ∨ strIncludes (lowerStr source) "g" = true) →
      LLM_SOURCES.any (fun llm => strIncludes (lowerStr source) (beforeDot llm)) = false →
      categorizeSource source medium = "listings" := by
    intro source medium hm hllm
    have hlist :
        LISTING_SOURCES.any (fun l => strIncludes (lowerStr source) (beforeDot l)) = true := by
      rcases hm with h | h
      · exact List.any_eq_true.mpr ⟨"m.yelp.com", by decide, by rw [e1]; exact h⟩
      · exact List.any_eq_true.mpr ⟨"g.page", by decide, by rw [e2]; exact h⟩
    unfold categorizeSource
    simp [hllm, hlist]
  exact ⟨main,
    fun med => main "google" med (Or.inr (by decide)) (by decide),
    fun med => main "gmail.com" med (Or.inl (by decide)) (by decide),
    fun med => main "instagram" med (Or.inl (by decide)) (by decide),
    e1, e2, by decide, by decide⟩

/-- Witness for C9: the hypotheses discharged at `("google", "organic")`. -/
theorem listing_single_letter_spec_witness :
    (strIncludes (lowerStr "google") "m" = true ∨ strIncludes (lowerStr "google") "g" = true)
    ∧ LLM_SOURCES.any (fun llm => strIncludes (lowerStr "google") (beforeDot llm)) = false
    ∧ categorizeSource "google" "organic" = "listings" := by
  refine ⟨Or.inr (by decide), by decide, ?_⟩
  exact listing_single_letter_spec.1 "google" "organic" (Or.inr (by decide)) (by decide)

/-- C8.  Event classification is one-directional `if / else if`: a name
matching the form list adds its count only to `forms` (even when it also
matches the phone list — e.g. `"lead_form_phone_click"`); the phone branch
only fires when no form substring matched; the same holds for the running
totals of the channel event loop, so no event count is ever added to both
buckets. -/
theorem event_classification_exclusive :
    (∀ (d : EventCounts) (nameLower : String) (count : Nat),
      (formEventNames.any (fun e => strIncludes nameLower e) = true →
        applyEvent d nameLower count = { d with forms := d.forms + count })
      ∧ (formEventNames.any (fun e => strIncludes nameLower e) = false →
          phoneEventNames.any (fun e => strIncludes nameLower e) = true →
        applyEvent d nameLower count = { d with phones := d.phones + count })
      ∧ (formEventNames.any (fun e => strIncludes nameLower e) = false →
          phoneEventNames.any (fun e => strIncludes nameLower e) = false →
        applyEvent d nameLower count = d)
      ∧ ¬(d.forms < (applyEvent d nameLower count).forms
          ∧ d.phones < (applyEvent d nameLower count).phones))
    ∧ (∀ (st : ChannelEventState) (row : ChannelEventRow),
      (formEventNames.any (fun e => strIncludes (lowerStr row.eventName) e) = true →
        (channelEventStep st row).totalForms = st.totalForms + row.count
        ∧ (channelEventStep st row).totalPhones = st.totalPhones)
      ∧ (formEventNames.any (fun e => strIncludes (lowerStr row.eventName) e) = false →
          phoneEventNames.any (fun e => strIncludes (lowerStr row.eventName) e) = true →
        (channelEventStep st row).totalPhones = st.totalPhones + row.count
        ∧ (channelEventStep st row).totalForms = st.totalForms))
    ∧ formEventNames.any (fun e => strIncludes (lowerStr "Lead_Form_Phone_Click") e) = true
    ∧ phoneEventNames.any (fun e => strIncludes (lowerStr "Lead_Form_Phone_Click") e) = true
    ∧ applyEvent ⟨0, 0⟩ (lowerStr "Lead_Form_Phone_Click") 3 = ⟨3, 0⟩ := by
  refine ⟨fun d nameLower count => ⟨fun hf => ?_, fun hf hp => ?_, fun hf hp => ?_, ?_⟩,
    fun st row => ⟨fun hf => ?_, fun hf hp => ?_⟩, by decide, by decide, by decide⟩
  · simp [applyEvent, hf]
  · simp [applyEvent, hf, hp]
  · simp [applyEvent, hf, hp]
  · unfold applyEvent
    split_ifs <;> simp
  · constructor <;> simp [channelEventStep, hf]
  · constructor <;> simp [channelEventStep, hf, hp]

/-- Witness for C8: the form-match hypothesis discharged at a name that
matches both curated lists. -/
theorem event_classification_exclusive_witness :
    formEventNames.any (fun e => strIncludes (lowerStr "Lead_Form_Phone_Click") e) = true
    ∧ applyEvent ⟨2, 7⟩ (lowerStr "Lead_Form_Phone_Click") 3
        = { forms := 2 + 3, phones := 7 } := by
  refine ⟨by decide, ?_⟩
  exact (event_classification_exclusive.1 ⟨2, 7⟩ (lowerStr "Lead_Form_Phone_Click") 3).1
    (by decide)

/-- C10.  A channel's clicks come from the search-console map only when the
stored count is non-zero; an absent channel or a stored `0` silently falls
back to the channel's sessions, in which case the click-to-lead rate equals
`conversions / sessions * 100`; the byChannel list is exactly the per-row
application of this rule. -/
theorem clicks_fallback_spec :
    (∀ (cbc : List (String × Nat)) (cd : List (String × EventCounts)) (row : ChannelRow),
      (∀ c : Nat, mapGet cbc row.channel = some c → c ≠ 0 →
        (mkChannelMetrics cbc cd row).clicks = c
        ∧ (mkChannelMetrics cbc cd row).clickToLeadRate
            = (row.conversions : ℚ) / (c : ℚ) * 100)
      ∧ ((mapGet cbc row.channel = none ∨ mapGet cbc row.channel = some 0) →
        (mkChannelMetrics cbc cd row).clicks = row.sessions
        ∧ (mkChannelMetrics cbc cd row).clickToLeadRate
            = (if row.sessions > 0
              then (row.conversions : ℚ) / (row.sessions : ℚ) * 100 else 0)))
    ∧ (∀ e : String, buildClicksByChannel (.error e) = [])
    ∧ (∀ (channelRows : List ChannelRow) (eventRows : List ChannelEventRow) searchRes,
        (getConversionsByChannelCore channelRows eventRows searchRes).byChannel
          = channelRows.map (mkChannelMetrics (buildClicksByChannel searchRes)
              (eventRows.foldl channelEventStep ⟨[], 0, 0⟩).channelData)) := by
  refine ⟨fun cbc cd row => ⟨fun c hc hcne => ?_, fun hor => ?_⟩,
    fun e => rfl, fun a b c => rfl⟩
  · constructor
    · simp [mkChannelMetrics, hc, hcne]
    · simp [mkChannelMetrics, hc, hcne, Nat.pos_of_ne_zero hcne]
  · rcases hor with h | h <;>
      exact ⟨by simp [mkChannelMetrics, h], by simp [mkChannelMetrics, h]⟩

/-- Witness for C10: the non-zero search-console hypothesis discharged at a
concrete map holding 10 clicks for the row's channel. -/
theorem clicks_fallback_spec_witness :
    mapGet [("Organic Search", 10)] "Organic Search" = some 10 ∧ (10 : Nat) ≠ 0
    ∧ (mkChannelMetrics [("Organic Search", 10)] [] ⟨"Organic Search", 1, 5, 1⟩).clicks
        = 10 := by
  refine ⟨by decide, by decide, ?_⟩
  exact ((clicks_fallback_spec.1 [("Organic Search", 10)] []
    ⟨"Organic Search", 1, 5, 1⟩).1 10 (by decide) (by decide)).1

/-! ### Helper lemmas on the breakdown structure (shared facts) -/

/-- The function `categorizeSource` only ever produces the eight category keys. -/
theorem categorize_mem_eight (s m : String) :
    categorizeSource s m = "llmAI" ∨ categorizeSource s m = "listings"
    ∨ categorizeSource s m = "paidSearch" ∨ categorizeSource s m = "organicSearch"
    ∨ categorizeSource s m = "social" ∨ categorizeSource s m = "referral"
    ∨ categorizeSource s m = "direct" ∨ categorizeSource s m = "other" := by
  simp only [categorizeSource]
  split_ifs <;> simp

theorem totalEntries_pushCategory (b : DetailedChannelBreakdown) (m : SourceMetrics)
    (cat : String)
    (h : cat = "llmAI" ∨ cat = "listings" ∨ cat = "paidSearch" ∨ cat = "organicSearch"
      ∨ cat = "social" ∨ cat = "referral" ∨ cat = "direct" ∨ cat = "other") :
    totalEntries (pushCategory b cat m) = totalEntries b + 1 := by
  rcases h with h | h | h | h | h | h | h | h <;> subst h <;>
    simp [pushCategory, totalEntries] <;> omega

theorem totalEntries_foldBreakdown (eventData : List (String × EventCounts))
    (rows : List SourceRow) :
    totalEntries (foldBreakdown eventData rows) = rows.length := by
  suffices h : ∀ b : DetailedChannelBreakdown,
      totalEntries (rows.foldl
        (fun b row => pushCategory b (categorizeSource row.source row.medium)
          (mkSourceMetrics eventData row)) b)
      = totalEntries b + rows.length by
    simpa [foldBreakdown, emptyBreakdown, totalEntries] using h emptyBreakdown
  induction rows with
  | nil => intro b; simp
  | cons r rs ih =>
    intro b
    simp only [List.foldl_cons, List.length_cons]
    rw [ih, totalEntries_pushCategory _ _ _ (categorize_mem_eight r.source r.medium)]
    omega

theorem sortBySessionsDesc_sorted (l : List SourceMetrics) :
    DescBySessions (sortBySessionsDesc l) := by
  unfold DescBySessions sortBySessionsDesc
  have h := @List.sorted_mergeSort SourceMetrics
    (fun a b : SourceMetrics => decide (b.sessions ≤ a.sessions))
    (fun a b c hab hbc => by
      simp only [decide_eq_true_eq] at hab hbc ⊢
      omega)
    (fun a b => by
      simp only [Bool.or_eq_true, decide_eq_true_eq]
      omega)
    l
  exact h.imp (fun hab => by simpa using hab)

theorem sortBySessionsDesc_length (l : List SourceMetrics) :
    (sortBySessionsDesc l).length = l.length := by
  unfold sortBySessionsDesc
  exact List.length_mergeSort l

theorem mem_sortBySessionsDesc (m : SourceMetrics) (l : List SourceMetrics) :
    m ∈ sortBySessionsDesc l ↔ m ∈ l := by
  unfold sortBySessionsDesc
  exact (List.mergeSort_perm l _).mem_iff

theorem totalEntries_sortBreakdown (b : DetailedChannelBreakdown) :
    totalEntries (sortBreakdown b) = totalEntries b := by
  simp [sortBreakdown, totalEntries, sortBySessionsDesc_length]

theorem memBreakdown_sortBreakdown (b : DetailedChannelBreakdown) (m : SourceMetrics) :
    memBreakdown m (sortBreakdown b) ↔ memBreakdown m b := by
  unfold memBreakdown sortBreakdown
  simp [mem_sortBySessionsDesc]

theorem memBreakdown_pushCategory (b : DetailedChannelBreakdown) (cat : String)
    (x m : SourceMetrics) (h : memBreakdown m (pushCategory b cat x)) :
    m = x ∨ memBreakdown m b := by
  by_cases h1 : cat = "organicSearch"
  · simp only [pushCategory, if_pos h1, memBreakdown, List.mem_append,
      List.mem_singleton] at h ⊢
    tauto
  by_cases h2 : cat = "paidSearch"
  · simp only [pushCategory, if_neg h1, if_pos h2, memBreakdown, List.mem_append,
      List.mem_singleton] at h ⊢
    tauto
  by_cases h3 : cat = "llmAI"
  · simp only [pushCategory, if_neg h1, if_neg h2, if_pos h3, memBreakdown, List.mem_append,
      List.mem_singleton] at h ⊢
    tauto
  by_cases h4 : cat = "listings"
  · simp only [pushCategory, if_neg h1, if_neg h2, if_neg h3, if_pos h4, memBreakdown,
      List.mem_append, List.mem_singleton] at h ⊢
    tauto
  by_cases h5 : cat = "social"
  · simp only [pushCategory, if_neg h1, if_neg h2, if_neg h3, if_neg h4, if_pos h5,
      memBreakdown, List.mem_append, List.mem_singleton] at h ⊢
    tauto
  by_cases h6 : cat = "referral"
  · simp only [pushCategory, if_neg h1, if_neg h2, if_neg h3, if_neg h4, if_neg h5,
      if_pos h6, memBreakdown, List.mem_append, List.mem_singleton] at h ⊢
    tauto
  by_cases h7 : cat = "direct"
  · simp only [pushCategory, if_neg h1, if_neg h2, if_neg h3, if_neg h4, if_neg h5,
      if_neg h6, if_pos h7, memBreakdown, List.mem_append, List.mem_singleton] at h ⊢
    tauto
  by_cases h8 : cat = "other"
  · simp only [pushCategory, if_neg h1, if_neg h2, if_neg h3, if_neg h4, if_neg h5,
      if_neg h6, if_neg h7, if_pos h8, memBreakdown, List.mem_append,
      List.mem_singleton] at h ⊢
    tauto
  · simp only [pushCategory, if_neg h1, if_neg h2, if_neg h3, if_neg h4, if_neg h5,
      if_neg h6, if_neg h7, if_neg h8] at h
    exact Or.inr h

theorem memBreakdown_foldBreakdown (eventData : List (String × EventCounts))
    (rows : List SourceRow) (m : SourceMetrics)
    (h : memBreakdown m (foldBreakdown eventData rows)) :
    ∃ row ∈ rows, m = mkSourceMetrics eventData row := by
  suffices hgen : ∀ b : DetailedChannelBreakdown,
      memBreakdown m (rows.foldl
        (fun b row => pushCategory b (categorizeSource row.source row.medium)
          (mkSourceMetrics eventData row)) b) →
      memBreakdown m b ∨ ∃ row ∈ rows, m = mkSourceMetrics eventData row by
    rcases hgen emptyBreakdown h with hmem | hex
    · simp [memBreakdown, emptyBreakdown] at hmem
    · exact hex
  clear h
  induction rows with
  | nil => intro b hb; exact Or.inl hb
  | cons r rs ih =>
    intro b hb
    simp only [List.foldl_cons] at hb
    rcases ih _ hb with hmem | hex
    · rcases memBreakdown_pushCategory _ _ _ _ hmem with he | hb'
      · exact Or.inr ⟨r, by simp, he⟩
      · exact Or.inl hb'
    · obtain ⟨row, hrow, hm⟩ := hex
      exact Or.inr ⟨row, by simp [hrow], hm⟩

/-- C2.  Every input source row lands in exactly one category sequence: the
eight sequences of the breakdown together hold exactly as many entries as
there were input rows, and each sequence is sorted descending by sessions. -/
theorem breakdown_partition_sorted (sourceRows : List SourceRow) (eventRows : List EventRow) :
    totalEntries (getDetailedChannelBreakdownCore sourceRows eventRows) = sourceRows.length
    ∧ DescBySessions (getDetailedChannelBreakdownCore sourceRows eventRows).organicSearch
    ∧ DescBySessions (getDetailedChannelBreakdownCore sourceRows eventRows).paidSearch
    ∧ DescBySessions (getDetailedChannelBreakdownCore sourceRows eventRows).llmAI
    ∧ DescBySessions (getDetailedChannelBreakdownCore sourceRows eventRows).listings
    ∧ DescBySessions (getDetailedChannelBreakdownCore sourceRows eventRows).social
    ∧ DescBySessions (getDetailedChannelBreakdownCore sourceRows eventRows).referral
    ∧ DescBySessions (getDetailedChannelBreakdownCore sourceRows eventRows).direct
    ∧ DescBySessions (getDetailedChannelBreakdownCore sourceRows eventRows).other := by
  unfold getDetailedChannelBreakdownCore
  refine ⟨?_, ?_, ?_, ?_, ?_, ?_, ?_, ?_, ?_⟩
  · rw [totalEntries_sortBreakdown, totalEntries_foldBreakdown]
  all_goals exact sortBySessionsDesc_sorted _

/-- C5 counterexample.  In the channel path (`getConversionsByChannel`) a
channel whose search-console click count is 10 while its sessions are 5 gets
rate `conversions / clicks * 100 = 10`, not `conversions / sessions * 100
= 20` as the claim states for that path. -/
theorem channel_rate_counterexample :
    (getConversionsByChannelCore [⟨"Organic Search", 1, 5, 1⟩] []
        (.ok [("Organic Search", 10)])).byChannel.map (fun cm => cm.clickToLeadRate) = [10]
    ∧ (getConversionsByChannelCore [⟨"Organic Search", 1, 5, 1⟩] []
        (.ok [("Organic Search", 10)])).byChannel.map (fun cm => cm.sessions) = [5]
    ∧ (getConversionsByChannelCore [⟨"Organic Search", 1, 5, 1⟩] []
        (.ok [("Organic Search", 10)])).byChannel.map (fun cm => cm.conversions) = [1]
    ∧ (10 : ℚ) ≠ (if (5 : Nat) > 0 then (1 : ℚ) / (5 : ℚ) * 100 else 0) := by
  have hb : (getConversionsByChannelCore [⟨"Organic Search", 1, 5, 1⟩] []
      (.ok [("Organic Search", 10)])).byChannel
      = [mkChannelMetrics [("Organic Search", 10)] [] ⟨"Organic Search", 1, 5, 1⟩] := rfl
  refine ⟨?_, rfl, rfl, ?_⟩
  · rw [hb]
    simp only [List.map_cons, List.map_nil, List.cons.injEq, and_true]
    show (if (10 : Nat) > 0 then (1 : ℚ) / (10 : ℚ) * 100 else 0) = 10
    norm_num
  · norm_num

/-- C5 amended.  The source/medium breakdown path computes
`conversions / sessions * 100` (0 when sessions = 0); the weekly-totals path
computes `conversions / clicks * 100` (0 when clicks = 0); the channel path
computes `conversions / clicks * 100` where clicks itself silently falls back
to sessions when the search-console count is absent or zero — three distinct
call sites, not unified. -/
theorem clickToLeadRate_call_sites :
    (∀ (sourceRows : List SourceRow) (eventRows : List EventRow) (m : SourceMetrics),
      memBreakdown m (getDetailedChannelBreakdownCore sourceRows eventRows) →
      m.clickToLeadRate
        = (if m.sessions > 0 then (m.conversions : ℚ) / (m.sessions : ℚ) * 100 else 0))
    ∧ (∀ (channelRows : List ChannelRow) (eventRows : List ChannelEventRow)
        (searchRes : Except String (List (String × Nat))) (cm : ChannelMetrics),
      cm ∈ (getConversionsByChannelCore channelRows eventRows searchRes).byChannel →
      cm.clickToLeadRate
        = (if cm.clicks > 0 then (cm.conversions : ℚ) / (cm.clicks : ℚ) * 100 else 0))
    ∧ (∀ (ct lt : WeeklyTotals) (cc lc : ConversionsByType),
      (compareWithLastYearCore ct lt cc lc).currentClickToLeadRate
        = (if ct.clicks > 0 then (cc.totalConversions : ℚ) / (ct.clicks : ℚ) * 100 else 0)
      ∧ (compareWithLastYearCore ct lt cc lc).lastYearClickToLeadRate
        = (if lt.clicks > 0 then (lc.totalConversions : ℚ) / (lt.clicks : ℚ) * 100 else 0)) := by
  refine ⟨?_, ?_, fun ct lt cc lc => ⟨rfl, rfl⟩⟩
  · intro sourceRows eventRows m hm
    rw [getDetailedChannelBreakdownCore, memBreakdown_sortBreakdown] at hm
    obtain ⟨row, -, rfl⟩ := memBreakdown_foldBreakdown _ _ _ hm
    rfl
  · intro channelRows eventRows searchRes cm hcm
    have hb : (getConversionsByChannelCore channelRows eventRows searchRes).byChannel
        = channelRows.map (mkChannelMetrics (buildClicksByChannel searchRes)
            (eventRows.foldl channelEventStep ⟨[], 0, 0⟩).channelData) := rfl
    rw [hb, List.mem_map] at hcm
    obtain ⟨row, -, rfl⟩ := hcm
    cases hg : mapGet (buildClicksByChannel searchRes) row.channel with
    | none => simp [mkChannelMetrics, hg]
    | some c =>
      by_cases hc : c ≠ 0 <;> simp [mkChannelMetrics, hg, hc]

/-- Witness for C5's amended theorem: the breakdown-membership hypothesis
discharged at a concrete single-row input. -/
theorem clickToLeadRate_call_sites_witness :
    memBreakdown (mkSourceMetrics (buildEventData []) ⟨"a", "referral", 1, 0, 0⟩)
      (getDetailedChannelBreakdownCore [⟨"a", "referral", 1, 0, 0⟩] [])
    ∧ (mkSourceMetrics (buildEventData []) ⟨"a", "referral", 1, 0, 0⟩).clickToLeadRate
      = (if (mkSourceMetrics (buildEventData []) ⟨"a", "referral", 1, 0, 0⟩).sessions > 0
        then ((mkSourceMetrics (buildEventData []) ⟨"a", "referral", 1, 0, 0⟩).conversions : ℚ)
          / ((mkSourceMetrics (buildEventData []) ⟨"a", "referral", 1, 0, 0⟩).sessions : ℚ)
          * 100
        else 0) := by
  have hmem : memBreakdown (mkSourceMetrics (buildEventData []) ⟨"a", "referral", 1, 0, 0⟩)
      (getDetailedChannelBreakdownCore [⟨"a", "referral", 1, 0, 0⟩] []) := by
    rw [getDetailedChannelBreakdownCore, memBreakdown_sortBreakdown]
    have hcat : categorizeSource "a" "referral" = "referral" := by decide
    simp only [foldBreakdown, List.foldl_cons, List.foldl_nil, hcat]
    simp [pushCategory, memBreakdown, emptyBreakdown]
  exact ⟨hmem, clickToLeadRate_call_sites.1 _ _ _ hmem⟩

/-- The daily loop with an empty `searchData` map keeps every search-derived
field at zero. -/
theorem weeklyStep_empty_search (rows : List MainDayRow) (st : WeeklyState)
    (hdaily : ∀ d ∈ st.daily, d.impressions = 0 ∧ d.clicks = 0 ∧ d.ctr = 0)
    (himp : st.totalImpressions = 0) (hclk : st.totalClicks = 0) :
    (∀ d ∈ (rows.foldl (weeklyStep []) st).daily, d.impressions = 0 ∧ d.clicks = 0 ∧ d.ctr = 0)
    ∧ (rows.foldl (weeklyStep []) st).totalImpressions = 0
    ∧ (rows.foldl (weeklyStep []) st).totalClicks = 0 := by
  induction rows generalizing st with
  | nil => exact ⟨hdaily, himp, hclk⟩
  | cons r rs ih =>
    simp only [List.foldl_cons]
    apply ih
    · intro d hd
      simp only [weeklyStep, mapGet, List.find?_nil, Option.map_none, Option.getD_none,
        List.mem_append, List.mem_singleton] at hd
      rcases hd with hd | hd
      · exact hdaily d hd
      · subst hd; exact ⟨rfl, rfl, rfl⟩
    · simp only [weeklyStep, mapGet, List.find?_nil, Option.map_none, Option.getD_none]
      simpa using himp
    · simp only [weeklyStep, mapGet, List.find?_nil, Option.map_none, Option.getD_none]
      simpa using hclk

/-- C7 counterexample.  When the optional search-console query fails,
`getConversionsByChannel` does not zero-fill its dependent `clicks` field: a
channel with 5 sessions reports `clicks = 5`, not `0`. -/
theorem conversions_clicks_not_zero_counterexample :
    (getConversionsByChannelCore [⟨"Direct", 1, 5, 2⟩] [] (.error "boom")).byChannel.map
      (fun cm => cm.clicks) = [5]
    ∧ (5 : Nat) ≠ 0 := by
  exact ⟨rfl, by decide⟩

/-- C7 amended.  A failed optional search-console query zero-fills the daily
and total impressions / clicks / ctr in `getWeeklyDashboardMetrics`, while in
`getConversionsByChannel` every channel's `clicks` falls back to its sessions
count (zero only when sessions is zero) with rate `conversions / sessions *
100`; a failed required query propagates as the whole request's failure. -/
theorem optional_search_failure_spec :
    (∀ (mainRows : List MainDayRow) (e : String),
      (∀ d ∈ (getWeeklyDashboardMetricsCore mainRows (.error e)).2,
        d.impressions = 0 ∧ d.clicks = 0 ∧ d.ctr = 0)
      ∧ (getWeeklyDashboardMetricsCore mainRows (.error e)).1.impressions = 0
      ∧ (getWeeklyDashboardMetricsCore mainRows (.error e)).1.clicks = 0
      ∧ (getWeeklyDashboardMetricsCore mainRows (.error e)).1.ctr = 0)
    ∧ (∀ (e : String) (searchRes : Except String (List SearchDayRow)),
        getWeeklyDashboardMetrics (.error e) searchRes = .error e)
    ∧ (∀ (channelRows : List ChannelRow) (eventRows : List ChannelEventRow) (e : String)
        (cm : ChannelMetrics),
      cm ∈ (getConversionsByChannelCore channelRows eventRows (.error e)).byChannel →
      cm.clicks = cm.sessions
      ∧ cm.clickToLeadRate
          = (if cm.sessions > 0 then (cm.conversions : ℚ) / (cm.sessions : ℚ) * 100 else 0))
    ∧ (∀ (e : String) (eventsRes : Except String (List ChannelEventRow))
        (searchRes : Except String (List (String × Nat))),
        getConversionsByChannel (.error e) eventsRes searchRes = .error e)
    ∧ (∀ (channelRows : List ChannelRow) (e : String)
        (searchRes : Except String (List (String × Nat))),
        getConversionsByChannel (.ok channelRows) (.error e) searchRes = .error e) := by
  refine ⟨?_, fun e s => rfl, ?_, fun e ev s => rfl, fun ch e s => rfl⟩
  · intro mainRows e
    have hs : buildSearchData (Except.error e) = [] := rfl
    have h := weeklyStep_empty_search mainRows initWeeklyState
      (by intro d hd; simp [initWeeklyState] at hd) rfl rfl
    have hcore : getWeeklyDashboardMetricsCore mainRows (.error e)
        = (let st := mainRows.foldl (weeklyStep []) initWeeklyState
           ({ users := st.totalUsers
              newUsers := st.totalNewUsers
              sessions := st.totalSessions
              pageviews := st.totalPageviews
              bounceRate := if st.rowCount > 0 then st.bounceRateSum / (st.rowCount : ℚ) else 0
              engagementRate :=
                if st.rowCount > 0 then st.engagementRateSum / (st.rowCount : ℚ) else 0
              conversions := st.totalConversions
              impressions := st.totalImpressions
              clicks := st.totalClicks
              ctr := if st.totalImpressions > 0
                then (st.totalClicks : ℚ) / (st.totalImpressions : ℚ) * 100 else 0
              avgSessionDuration :=
                if st.rowCount > 0 then st.avgSessionDurationSum / (st.rowCount : ℚ) else 0 },
            st.daily)) := rfl
    rw [hcore]
    refine ⟨h.1, h.2.1, h.2.2, ?_⟩
    simp only [h.2.1]
    norm_num
  · intro channelRows eventRows e cm hcm
    have hb : (getConversionsByChannelCore channelRows eventRows (.error e)).byChannel
        = channelRows.map (mkChannelMetrics []
            (eventRows.foldl channelEventStep ⟨[], 0, 0⟩).channelData) := rfl
    rw [hb, List.mem_map] at hcm
    obtain ⟨row, -, rfl⟩ := hcm
    constructor <;> simp [mkChannelMetrics, mapGet]

/-- Witness for C7's amended theorem: the byChannel-membership hypothesis
discharged at a concrete one-channel input with the search query failed. -/
theorem optional_search_failure_spec_witness :
    mkChannelMetrics [] [] ⟨"Direct", 1, 5, 2⟩
      ∈ (getConversionsByChannelCore [⟨"Direct", 1, 5, 2⟩] [] (.error "boom")).byChannel
    ∧ (mkChannelMetrics [] [] ⟨"Direct", 1, 5, 2⟩).clicks
        = (mkChannelMetrics [] [] ⟨"Direct", 1, 5, 2⟩).sessions := by
  have hmem : mkChannelMetrics [] [] ⟨"Direct", 1, 5, 2⟩
      ∈ (getConversionsByChannelCore [⟨"Direct", 1, 5, 2⟩] [] (.error "boom")).byChannel := by
    have hb : (getConversionsByChannelCore [⟨"Direct", 1, 5, 2⟩] []
        (.error "boom")).byChannel = [mkChannelMetrics [] [] ⟨"Direct", 1, 5, 2⟩] := rfl
    rw [hb]
    exact List.mem_singleton.mpr rfl
  exact ⟨hmem, (optional_search_failure_spec.2.2.1 _ _ "boom" _ hmem).1⟩

/-- C4.  `detectAnomalies` flags exactly the points with `|deviation| >
threshold` (strict), outputs them as an order-preserving sublist of the
mapped series, sets `hasAnomaly` iff that list is non-empty, computes each
deviation by `(value − mean) / σ` when `σ > 0` and `0` otherwise, never
flags a constant series for any positive threshold, and uses the population
standard deviation (σ of `[0, 2]` is `1`, not the sample value `√2`). -/
theorem detectAnomalies_spec :
    (∀ (values : List DatedValue) (t : ℝ),
      ((detectAnomaliesCore values t).hasAnomaly = true
        ↔ (detectAnomaliesCore values t).anomalies ≠ [])
      ∧ (detectAnomaliesCore values t).anomalies.Sublist (anomalyPoints values)
      ∧ (∀ p ∈ anomalyPoints values,
          p ∈ (detectAnomaliesCore values t).anomalies ↔ |p.deviation| > t)
      ∧ (∀ p ∈ anomalyPoints values,
          p.deviation = (if anomalyStdDev values > 0
            then (p.value - anomalyMean values) / anomalyStdDev values else 0)))
    ∧ (∀ (c : ℝ) (n : Nat) (dt : String) (t : ℝ), 0 < t →
        (detectAnomaliesCore (List.replicate n ⟨dt, c⟩) t).hasAnomaly = false)
    ∧ anomalyMean [⟨"a", 0⟩, ⟨"b", 2⟩] = 1
    ∧ anomalyStdDev [⟨"a", 0⟩, ⟨"b", 2⟩] = 1 := by
  refine ⟨fun values t => ⟨?_, ?_, ?_, ?_⟩, ?_, ?_, ?_⟩
  · simp only [detectAnomaliesCore, decide_eq_true_eq]
    rw [← List.length_pos_iff_ne_nil]
  · exact List.filter_sublist _
  · intro p hp
    simp only [detectAnomaliesCore, List.mem_filter, decide_eq_true_eq]
    exact ⟨fun h => h.2, fun h => ⟨hp, h⟩⟩
  · intro p hp
    simp only [anomalyPoints, List.mem_map] at hp
    obtain ⟨v, -, rfl⟩ := hp
    rfl
  · intro c n dt t ht
    have hdev : ∀ p ∈ anomalyPoints (List.replicate n ⟨dt, c⟩), p.deviation = 0 := by
      cases n with
      | zero => simp [anomalyPoints]
      | succ k =>
        have hmap : (List.replicate (k + 1) (⟨dt, c⟩ : DatedValue)).map (·.value)
            = List.replicate (k + 1) c := by
          simp
        have hmean : anomalyMean (List.replicate (k + 1) ⟨dt, c⟩) = c := by
          unfold anomalyMean
          rw [hmap]
          rw [List.sum_replicate, List.length_replicate]
          rw [nsmul_eq_mul]
          field_simp
        have hsd : anomalyStdDev (List.replicate (k + 1) ⟨dt, c⟩) = 0 := by
          unfold anomalyStdDev
          rw [hmap, hmean]
          simp [List.map_replicate, sub_self]
        intro p hp
        simp only [anomalyPoints, List.mem_map] at hp
        obtain ⟨v, -, rfl⟩ := hp
        simp [hsd]
    have hfil : (anomalyPoints (List.replicate n ⟨dt, c⟩)).filter
        (fun a => decide (|a.deviation| > t)) = [] := by
      refine List.filter_eq_nil_iff.mpr ?_
      intro a ha
      simp only [decide_eq_true_eq, not_lt]
      rw [hdev a ha]
      simpa using ht.le
    show decide (((anomalyPoints (List.replicate n ⟨dt, c⟩)).filter
        (fun a => decide (|a.deviation| > t))).length > 0) = false
    rw [hfil]
    rfl
  · unfold anomalyMean
    norm_num
  · have h1 : anomalyMean [⟨"a", 0⟩, ⟨"b", 2⟩] = 1 := by unfold anomalyMean; norm_num
    unfold anomalyStdDev
    rw [h1]
    have h2 : ((([⟨"a", (0:ℝ)⟩, ⟨"b", 2⟩] : List DatedValue).map (·.value)).map
        (fun v => (v - 1) ^ 2)).sum
        / ((([⟨"a", (0:ℝ)⟩, ⟨"b", 2⟩] : List DatedValue).map (·.value)).length : ℝ) = 1 := by
      norm_num
    rw [h2]
    exact Real.sqrt_one

/-- Witness for C4: the positive-threshold hypothesis discharged at the
constant series `[5,5,5,5,5]` with threshold `2`. -/
theorem detectAnomalies_spec_witness :
    (0 : ℝ) < 2
    ∧ (detectAnomaliesCore (List.replicate 5 ⟨"2024-01-01", 5⟩) 2).hasAnomaly = false := by
  refine ⟨by norm_num, ?_⟩
  exact detectAnomalies_spec.2.1 5 5 "2024-01-01" 2 (by norm_num)
